import Mathlib

/-!
Verification of the geo-audio walking-tour app (`src/app/page.tsx`,
`src/unnamed/part_000`).

The repository is a React/Next.js page.  Its core is:

* `getDistance` — the haversine great-circle distance (pure arithmetic on
  IEEE doubles; embedded here over `ℝ`);
* `processLocationUpdate` — the proximity engine: one pass over the POI
  list, recomputing distances, tracking the nearest POI, marking POIs
  within `TRIGGER_RADIUS` as played, and producing a status message plus
  the React state-setter effects (`setActiveAudio`, `setError`,
  `setStatusMessage`);
* the audio playback `useEffect` and the geolocation error handlers of
  `handleStartTour`;
* the AR launch buttons of the two drafts of the page.

JavaScript numbers that flow through comparisons against the `Infinity`
sentinel are embedded as `JsNum` (a rational, `Infinity`, or `NaN`) with
the exact JS comparison semantics (`NaN` compares false to everything).
The engine is parametrised by the distance oracle
`dist : PointOfInterest → JsNum`, standing for
`fun p => getDistance latitude longitude p.lat p.lon` evaluated at the
incoming sample; every theorem about the engine's control flow is proved
for an arbitrary oracle.
-/

/-- JavaScript number as it is used by the engine: a finite value (ideal
real arithmetic, represented by a rational since the engine only compares
and rounds), the `Infinity` sentinel, or `NaN`. -/
inductive JsNum where
  | fin : ℚ → JsNum
  | inf : JsNum
  | nan : JsNum
deriving DecidableEq, Repr

/-- JavaScript `<` on numbers: any comparison with `NaN` is false;
`Infinity` is not `<` anything; a finite value is `<` `Infinity`. -/
def jsLt : JsNum → JsNum → Bool
  | JsNum.nan, _ => false
  | _, JsNum.nan => false
  | JsNum.fin a, JsNum.fin b => decide (a < b)
  | JsNum.fin _, JsNum.inf => true
  | JsNum.inf, _ => false

/-- JavaScript `<=` on numbers: any comparison with `NaN` is false;
`Infinity <= Infinity` is true. -/
def jsLe : JsNum → JsNum → Bool
  | JsNum.nan, _ => false
  | _, JsNum.nan => false
  | JsNum.fin a, JsNum.fin b => decide (a ≤ b)
  | JsNum.fin _, JsNum.inf => true
  | JsNum.inf, JsNum.inf => true
  | JsNum.inf, JsNum.fin _ => false

/-- JavaScript `Math.round` on a finite value: round half toward
positive infinity, i.e. `⌊x + 1/2⌋`. -/
def jsRound (q : ℚ) : ℤ := ⌊q + 1 / 2⌋

/-- String interpolation of `Math.round(d)` as the status message does it:
finite values print their rounded integer, `Infinity` prints "Infinity",
`NaN` prints "NaN". -/
def jsNumToRoundedString : JsNum → String
  | JsNum.fin q => toString (jsRound q)
  | JsNum.inf => "Infinity"
  | JsNum.nan => "NaN"

/-- `interface PointOfInterest` of the source: id, name, coordinates
(decimal degrees), narration reference (`audioSrc`), description. -/
structure PointOfInterest where
  id : ℕ
  name : String
  lat : ℚ
  lon : ℚ
  audioSrc : String
  description : String
deriving DecidableEq, Repr

/-- `interface LocationState` of the source: a POI together with the two
mutable fields `played` and `distance` (the source spreads the POI fields
flat; here they are nested under `poi`, which is the same data). -/
structure LocationState where
  poi : PointOfInterest
  played : Bool
  distance : JsNum
deriving DecidableEq, Repr

/-- `const TRIGGER_RADIUS = 30` (meters). -/
def TRIGGER_RADIUS : ℚ := 30

/-- The `pointsOfInterest` catalog of `src/app/page.tsx` (first draft,
three POIs; the other two drafts have the first two entries only). -/
def pointsOfInterest : List PointOfInterest :=
  [ { id := 1, name := "The Old Adams Cabin Site",
      lat := 46.106953, lon := -77.489467,
      audioSrc := "/oldcabin.m4a",
      description := "This is where the story of the family cabin unfolds. Listen to memories of growing up by the water." },
    { id := 2, name := "Approx. Wylie Road Schoolhouse Location",
      lat := 46.0997975, lon := -77.4900301,
      audioSrc := "/oldcabin.m4a",
      description := "Imagine the long walk to the one-room schoolhouse. This audio clip shares what school was like in the 1940s." },
    { id := 3, name := "Approx. 69 Lange Rd",
      lat := 46.1581327, lon := -77.632293,
      audioSrc := "/oldcabin.m4a",
      description := "69 Lange Rd" } ]

/-- The initial `locations` React state:
`pointsOfInterest.map(p => (\x7b ...p, played: false, distance: Infinity \x7d))`. -/
def initialLocations : List LocationState :=
  pointsOfInterest.map (fun p => { poi := p, played := false, distance := JsNum.inf })

/-- The trigger condition of the loop body:
`distance <= TRIGGER_RADIUS && !point.played`. -/
def qualifies (dist : PointOfInterest → JsNum) (point : LocationState) : Bool :=
  jsLe (dist point.poi) (JsNum.fin TRIGGER_RADIUS) && !point.played

/-- The per-point result of the `map` callback in `processLocationUpdate`:
`return (\x7b ...point, played: true, distance \x7d)` in the trigger branch,
`return (\x7b ...point, distance \x7d)` otherwise. -/
def updatePoint (dist : PointOfInterest → JsNum) (point : LocationState) : LocationState :=
  if qualifies dist point then
    { point with played := true, distance := dist point.poi }
  else
    { point with distance := dist point.poi }

/-- The mutable context captured by the `map` callback in
`processLocationUpdate`: the accumulated `updatedLocations`, the
`nearestPoint` running minimum (its `distance` field and, once a point has
been captured, that point), the `didTriggerAudio` flag, and the pending
React state-setter effects (`setActiveAudio`, `setError(null)`,
`setStatusMessage`, last call winning). -/
structure ScanAcc where
  updated : List LocationState
  nearestDist : JsNum
  nearestPoi : Option PointOfInterest
  didTrigger : Bool
  activeAudio : Option String
  errorCleared : Bool
  status : Option String
deriving DecidableEq, Repr

/-- One iteration of the `map` callback of `processLocationUpdate`,
written field-wise.  Correspondence with the source:
`updated` appends the returned point (trigger branch sets `played: true`);
`nearestDist`/`nearestPoi` implement
`if (distance < nearestPoint.distance) nearestPoint = \x7b ...point, distance \x7d`
(strict `<`, checked before the trigger test, over every point regardless
of `played`); `didTrigger` implements `didTriggerAudio = true`;
`activeAudio`, `errorCleared` and `status` record `setActiveAudio`,
`setError(null)` and `setStatusMessage` performed in the trigger branch. -/
def stepPoint (dist : PointOfInterest → JsNum) (acc : ScanAcc) (point : LocationState) : ScanAcc :=
  let d := dist point.poi
  let nearer := jsLt d acc.nearestDist
  let trig := qualifies dist point
  { updated := acc.updated ++ [updatePoint dist point],
    nearestDist := if nearer then d else acc.nearestDist,
    nearestPoi := if nearer then some point.poi else acc.nearestPoi,
    didTrigger := acc.didTrigger || trig,
    activeAudio := if trig then some point.poi.audioSrc else acc.activeAudio,
    errorCleared := acc.errorCleared || trig,
    status := if trig then some ("Playing story for: " ++ point.poi.name) else acc.status }

/-- The whole `prevLocations.map(point => ...)` pass, left to right. -/
def runScan (dist : PointOfInterest → JsNum) : List LocationState → ScanAcc → ScanAcc
  | [], acc => acc
  | p :: rest, acc => runScan dist rest (stepPoint dist acc p)

/-- Values of the captured variables before the `map`:
`nearestPoint = \x7b distance: Infinity \x7d`, `didTriggerAudio = false`, no
state setter called yet. -/
def initialScanAcc : ScanAcc :=
  { updated := [], nearestDist := JsNum.inf, nearestPoi := none,
    didTrigger := false, activeAudio := none, errorCleared := false, status := none }

/-- Net effect of one `processLocationUpdate` call: the new `locations`
array and the values pushed into the React state by this call. -/
structure UpdateResult where
  newLocations : List LocationState
  didTrigger : Bool
  activeAudio : Option String
  errorCleared : Bool
  statusMessage : String
deriving DecidableEq, Repr

/-- `processLocationUpdate`, parametrised by the distance oracle
`dist p = getDistance latitude longitude p.lat p.lon` for the incoming
sample.  After the `map`, `if (!didTriggerAudio)` the status message is
set to the searching fallback when `nearestPoint.distance === Infinity`,
else to the walk-towards message with `Math.round(distance)`; when the
initial `nearestPoint` was never replaced the source would read `.name`
off an object without one, printing `undefined`. -/
def processLocationUpdate (dist : PointOfInterest → JsNum)
    (prevLocations : List LocationState) : UpdateResult :=
  let acc := runScan dist prevLocations initialScanAcc
  let statusMessage :=
    if acc.didTrigger then
      acc.status.getD ""
    else if acc.nearestDist = JsNum.inf then
      "Searching for points of interest..."
    else
      "Walk towards " ++
        (match acc.nearestPoi with
         | some p => p.name
         | none => "undefined") ++
        " (" ++ jsNumToRoundedString acc.nearestDist ++ "m away)"
  { newLocations := acc.updated, didTrigger := acc.didTrigger,
    activeAudio := acc.activeAudio, errorCleared := acc.errorCleared,
    statusMessage := statusMessage }

/-- The nearest-point tracking of the loop in isolation: the running
`(nearestPoint.distance, nearestPoint)` pair, updated on strict `jsLt`. -/
def nearestFold (dist : PointOfInterest → JsNum) :
    List LocationState → JsNum × Option PointOfInterest → JsNum × Option PointOfInterest
  | [], acc => acc
  | p :: rest, acc =>
      nearestFold dist rest
        (if jsLt (dist p.poi) acc.1 then (dist p.poi, some p.poi) else acc)

/-- The React component state touched by the playback effect and the
error handlers: `locations`, `activeAudio`, `error`, `statusMessage`, and
the `src` attribute of the `audio` element (`audioRef.current.src`). -/
structure AppState where
  locations : List LocationState
  activeAudio : Option String
  error : Option String
  statusMessage : String
  audioSrcAttr : Option String
deriving DecidableEq, Repr

/-- The audio playback `useEffect` (`[activeAudio]` dependency):
`if (activeAudio && audioRef.current)` set the element's `src` and call
`play()`; when the returned promise rejects (autoplay blocked) set the
manual-action error notice.  When there is no audio sink
(`audioRef.current` null) or no active narration, nothing at all happens.
`audioSinkPresent` models `audioRef.current !== null`; `playRejected`
models the promise rejecting. -/
def audioPlaybackEffect (st : AppState) (audioSinkPresent : Bool) (playRejected : Bool) : AppState :=
  match st.activeAudio, audioSinkPresent with
  | some src, true =>
      let st1 := { st with audioSrcAttr := some src }
      if playRejected then
        { st1 with error := some "Your browser blocked autoplay. Please press play on the audio player." }
      else st1
  | _, _ => st

/-- The `watchPosition` error callback of `handleStartTour`:
`(err) => setError(`Location Error: $\x7berr.message\x7d`)`. -/
def watchPositionErrorHandler (st : AppState) (msg : String) : AppState :=
  { st with error := some ("Location Error: " ++ msg) }

/-- The `getCurrentPosition` (initial fix) error callback of
`handleStartTour`:
`setError(`Permission Denied: $\x7berr.message\x7d. Please enable location services.`)`. -/
def initialPositionErrorHandler (st : AppState) (msg : String) : AppState :=
  { st with error := some ("Permission Denied: " ++ msg ++ ". Please enable location services.") }

/-- The AR launch button of the second draft of `src/app/page.tsx`
(rendered per POI card): shown iff
`point.id === 1 && point.played && !showAR`.  The page offers the AR
experience iff the button is rendered for some POI. -/
def arLaunchOffered_secondDraft (locs : List LocationState) (showAR : Bool) : Bool :=
  locs.any (fun l => l.poi.id == 1 && l.played && !showAR)

/-- The AR launch button of the first draft of `src/app/page.tsx`:
shown iff `point.played` — for every visited POI, with no id check. -/
def arLaunchOffered_firstDraft (locs : List LocationState) : Bool :=
  locs.any (fun l => l.played)

open Classical in
/-- JavaScript `Math.atan2 y x` over the reals (signed-zero distinctions
dropped): the angle of the point `(x, y)`. -/
noncomputable def atan2 (y x : ℝ) : ℝ :=
  if 0 < x then Real.arctan (y / x)
  else if x < 0 ∧ 0 ≤ y then Real.arctan (y / x) + Real.pi
  else if x < 0 ∧ y < 0 then Real.arctan (y / x) - Real.pi
  else if 0 < y then Real.pi / 2
  else if y < 0 then -(Real.pi / 2)
  else 0

/-- `getDistance` of the source — the haversine great-circle distance with
Earth radius `R = 6371e3` meters — embedded over the reals. -/
noncomputable def getDistance (lat1 lon1 lat2 lon2 : ℝ) : ℝ :=
  let R : ℝ := 6371e3
  let φ1 := lat1 * Real.pi / 180
  let φ2 := lat2 * Real.pi / 180
  let Δφ := (lat2 - lat1) * Real.pi / 180
  let Δlam := (lon2 - lon1) * Real.pi / 180
  let a := Real.sin (Δφ / 2) * Real.sin (Δφ / 2) +
    Real.cos φ1 * Real.cos φ2 * Real.sin (Δlam / 2) * Real.sin (Δlam / 2)
  let c := 2 * atan2 (Real.sqrt a) (Real.sqrt (1 - a))
  R * c

/-- Demo POI fixtures for concrete witnesses and counterexamples: two
catalog entries placed at the same coordinates, as a deployment with two
POIs closer together than twice the trigger radius would have
(the catalog is configuration, §6 of the spec). -/
def demoPoiOne : PointOfInterest :=
  { id := 1, name := "Demo One", lat := 0, lon := 0,
    audioSrc := "/one.m4a", description := "first demo point" }

/-- Second demo POI, co-located with the first. -/
def demoPoiTwo : PointOfInterest :=
  { id := 2, name := "Demo Two", lat := 0, lon := 0,
    audioSrc := "/two.m4a", description := "second demo point" }

/-- Demo engine state: both demo POIs unvisited, distances at the
`Infinity` sentinel (the state before the first fix). -/
def demoUnvisited : List LocationState :=
  [ { poi := demoPoiOne, played := false, distance := JsNum.inf },
    { poi := demoPoiTwo, played := false, distance := JsNum.inf } ]

/-- Oracle for a sample at the demo POIs' shared coordinates: both
distances are zero (`getDistance` at identical points is zero). -/
def demoZeroOracle : PointOfInterest → JsNum := fun _ => JsNum.fin 0

/-- Oracle for a sample 50 meters from both demo POIs: a tie outside the
trigger radius. -/
def demoTieOracle : PointOfInterest → JsNum := fun _ => JsNum.fin 50

/-- Oracle for a sample outside the trigger radius of every demo POI,
with distinct distances: 100 m from the id-1 POI, 40 m from the other. -/
def demoFarOracle : PointOfInterest → JsNum :=
  fun p => if p.id == 1 then JsNum.fin 100 else JsNum.fin 40

/-- Oracle standing for `getDistance` evaluated at a malformed sample
(non-finite latitude or longitude): the trigonometric pipeline propagates
`NaN` to every POI's distance. -/
def nanOracle : PointOfInterest → JsNum := fun _ => JsNum.nan

/-- Demo engine state after some prior fix: one POI, unvisited, last
distance 100 m. -/
def demoAfterFix : List LocationState :=
  [ { poi := demoPoiOne, played := false, distance := JsNum.fin 100 } ]

/-- Demo component state with a narration active and no error, as right
after a trigger. -/
def demoTriggeredApp : AppState :=
  { locations := [ { poi := demoPoiOne, played := true, distance := JsNum.fin 10 },
                   { poi := demoPoiTwo, played := false, distance := JsNum.fin 10 } ],
    activeAudio := some "/one.m4a", error := none,
    statusMessage := "Playing story for: Demo One", audioSrcAttr := none }

/-- Demo component state for the AR claim: the id-2 POI visited, the
designated id-1 POI not visited. -/
def demoMixedVisited : List LocationState :=
  [ { poi := demoPoiOne, played := false, distance := JsNum.inf },
    { poi := demoPoiTwo, played := true, distance := JsNum.fin 10 } ]

/-- A run of the engine: `processLocationUpdate` applied once per
incoming fix, in arrival order, each fix represented by its distance
oracle; the React `locations` state threads through. -/
def updateSeq (dists : List (PointOfInterest → JsNum)) (locs : List LocationState) :
    List LocationState :=
  dists.foldl (fun ls d => (processLocationUpdate d ls).newLocations) locs

/-- The component state immediately after an engine update committed its
trigger (locations and status written, narration reference active, no
current error, audio element not yet loaded). -/
def appStateAfterUpdate (r : UpdateResult) : AppState :=
  { locations := r.newLocations, activeAudio := r.activeAudio, error := none,
    statusMessage := r.statusMessage, audioSrcAttr := none }

/-- The component state after an update followed by the playback effect
whose `play()` promise the platform rejected (autoplay blocked), with the
audio sink present. -/
def rejectedPlaybackState (dist : PointOfInterest → JsNum)
    (locs : List LocationState) : AppState :=
  audioPlaybackEffect (appStateAfterUpdate (processLocationUpdate dist locs)) true true

/-! Basic facts about the JavaScript comparisons. -/

lemma jsLt_irrefl (a : JsNum) : jsLt a a = false := by
  cases a <;> simp [jsLt]

lemma jsLt_fin_fin {a b : ℚ} : jsLt (JsNum.fin a) (JsNum.fin b) = true ↔ a < b := by
  simp [jsLt]

lemma jsLt_fin_left {a b : JsNum} (h : jsLt a b = true) : ∃ q, a = JsNum.fin q := by
  cases a with
  | fin q => exact ⟨q, rfl⟩
  | inf => cases b <;> simp [jsLt] at h
  | nan => cases b <;> simp [jsLt] at h

lemma jsLt_trans {a b c : JsNum} (hab : jsLt a b = true) (hbc : jsLt b c = true) :
    jsLt a c = true := by
  cases a <;> cases b <;> cases c <;> simp_all [jsLt]
  exact lt_trans hab hbc

/-! Characterisation of the scan pass of `processLocationUpdate`. -/

lemma stepPoint_updated (dist : PointOfInterest → JsNum) (acc : ScanAcc) (p : LocationState) :
    (stepPoint dist acc p).updated = acc.updated ++ [updatePoint dist p] := rfl

lemma stepPoint_didTrigger (dist : PointOfInterest → JsNum) (acc : ScanAcc) (p : LocationState) :
    (stepPoint dist acc p).didTrigger = (acc.didTrigger || qualifies dist p) := rfl

lemma stepPoint_errorCleared (dist : PointOfInterest → JsNum) (acc : ScanAcc) (p : LocationState) :
    (stepPoint dist acc p).errorCleared = (acc.errorCleared || qualifies dist p) := rfl

lemma runScan_updated (dist : PointOfInterest → JsNum) (pts : List LocationState) :
    ∀ acc : ScanAcc, (runScan dist pts acc).updated = acc.updated ++ pts.map (updatePoint dist) := by
  induction pts with
  | nil => intro acc; simp [runScan]
  | cons p rest ih =>
      intro acc
      simp only [runScan, List.map_cons]
      rw [ih, stepPoint_updated]
      simp

lemma runScan_didTrigger (dist : PointOfInterest → JsNum) (pts : List LocationState) :
    ∀ acc : ScanAcc,
      (runScan dist pts acc).didTrigger = (acc.didTrigger || pts.any (qualifies dist)) := by
  induction pts with
  | nil => intro acc; simp [runScan]
  | cons p rest ih =>
      intro acc
      simp only [runScan, List.any_cons]
      rw [ih, stepPoint_didTrigger, Bool.or_assoc]

lemma runScan_errorCleared (dist : PointOfInterest → JsNum) (pts : List LocationState) :
    ∀ acc : ScanAcc,
      (runScan dist pts acc).errorCleared = (acc.errorCleared || pts.any (qualifies dist)) := by
  induction pts with
  | nil => intro acc; simp [runScan]
  | cons p rest ih =>
      intro acc
      simp only [runScan, List.any_cons]
      rw [ih, stepPoint_errorCleared, Bool.or_assoc]

lemma getLast?_cons_elim {α β : Type} (p : α) (l : List α) (c : β) (f : α → β) :
    ((p :: l).getLast?).elim c f = (l.getLast?).elim (f p) f := by
  cases l with
  | nil => rfl
  | cons b t =>
      rw [List.getLast?_cons_cons]
      rcases h : (b :: t).getLast? with _ | y
      · exact absurd (List.getLast?_eq_none_iff.mp h) (by simp)
      · rfl

lemma runScan_activeAudio (dist : PointOfInterest → JsNum) (pts : List LocationState) :
    ∀ acc : ScanAcc,
      (runScan dist pts acc).activeAudio =
        ((pts.filter (qualifies dist)).getLast?).elim acc.activeAudio
          (fun l => some l.poi.audioSrc) := by
  induction pts with
  | nil => intro acc; simp [runScan]
  | cons p rest ih =>
      intro acc
      simp only [runScan, List.filter_cons]
      rw [ih]
      cases hq : qualifies dist p
      · simp only [Bool.false_eq_true, if_false]
        congr 1
        simp [stepPoint, hq]
      · simp only [if_true]
        rw [getLast?_cons_elim]
        congr 1
        simp [stepPoint, hq]

lemma runScan_status (dist : PointOfInterest → JsNum) (pts : List LocationState) :
    ∀ acc : ScanAcc,
      (runScan dist pts acc).status =
        ((pts.filter (qualifies dist)).getLast?).elim acc.status
          (fun l => some ("Playing story for: " ++ l.poi.name)) := by
  induction pts with
  | nil => intro acc; simp [runScan]
  | cons p rest ih =>
      intro acc
      simp only [runScan, List.filter_cons]
      rw [ih]
      cases hq : qualifies dist p
      · simp only [Bool.false_eq_true, if_false]
        congr 1
        simp [stepPoint, hq]
      · simp only [if_true]
        rw [getLast?_cons_elim]
        congr 1
        simp [stepPoint, hq]

lemma runScan_nearest (dist : PointOfInterest → JsNum) (pts : List LocationState) :
    ∀ acc : ScanAcc,
      ((runScan dist pts acc).nearestDist, (runScan dist pts acc).nearestPoi) =
        nearestFold dist pts (acc.nearestDist, acc.nearestPoi) := by
  induction pts with
  | nil => intro acc; rfl
  | cons p rest ih =>
      intro acc
      simp only [runScan, nearestFold]
      rw [ih]
      congr 1
      cases h : jsLt (dist p.poi) acc.nearestDist <;> simp [stepPoint, h]

lemma nearestFold_spec (dist : PointOfInterest → JsNum) :
    ∀ (pts : List LocationState) (nd : JsNum) (m : Option PointOfInterest),
      nd ≠ JsNum.nan →
      ((∀ l ∈ pts, ∀ s : ℚ, dist l.poi = JsNum.fin s →
          ∃ r : ℚ, (nearestFold dist pts (nd, m)).1 = JsNum.fin r ∧ r ≤ s) ∧
        (nearestFold dist pts (nd, m) = (nd, m) ∨
          ∃ i, ∃ hi : i < pts.length,
            (nearestFold dist pts (nd, m)).1 = dist (pts.get ⟨i, hi⟩).poi ∧
            (nearestFold dist pts (nd, m)).2 = some (pts.get ⟨i, hi⟩).poi ∧
            jsLt (nearestFold dist pts (nd, m)).1 nd = true ∧
            ∀ k, ∀ hk : k < pts.length, k < i → ∀ s : ℚ,
              dist (pts.get ⟨k, hk⟩).poi = JsNum.fin s →
              ∃ t : ℚ, (nearestFold dist pts (nd, m)).1 = JsNum.fin t ∧ t < s)) := by
  intro pts
  induction pts with
  | nil =>
      intro nd m _
      refine ⟨?_, Or.inl rfl⟩
      intro l hl
      cases hl
  | cons p rest ih =>
      intro nd m hnd
      by_cases hlt : jsLt (dist p.poi) nd = true
      · -- the head replaces the running minimum
        obtain ⟨a, ha⟩ := jsLt_fin_left hlt
        have hstep : nearestFold dist (p :: rest) (nd, m) =
            nearestFold dist rest (dist p.poi, some p.poi) := by
          simp [nearestFold, hlt]
        have key := ih (dist p.poi) (some p.poi) (by rw [ha]; intro h; cases h)
        constructor
        · intro l hl s hs
          rcases List.mem_cons.mp hl with rfl | hl'
          · rw [hstep]
            rcases key.2 with hunch | ⟨i, hi, h1, _h2, h3, _h4⟩
            · refine ⟨s, ?_, le_refl s⟩
              rw [hunch]
              exact hs
            · obtain ⟨t, ht⟩ := jsLt_fin_left h3
              have h5 := h3
              rw [ht, hs] at h5
              exact ⟨t, ht, le_of_lt (jsLt_fin_fin.mp h5)⟩
          · rw [hstep]
            exact key.1 l hl' s hs
        · right
          rcases key.2 with hunch | ⟨i, hi, h1, h2, h3, h4⟩
          · refine ⟨0, by simp, ?_, ?_, ?_, ?_⟩
            · rw [hstep, hunch]
              rfl
            · rw [hstep, hunch]
              rfl
            · rw [hstep, hunch]; exact hlt
            · intro k hk hk0 s _
              exact absurd hk0 (Nat.not_lt_zero k)
          · refine ⟨i + 1, Nat.succ_lt_succ hi, ?_, ?_, ?_, ?_⟩
            · rw [hstep]; exact h1
            · rw [hstep]; exact h2
            · rw [hstep]; exact jsLt_trans h3 hlt
            · intro k hk hki s hks
              rw [hstep]
              cases k with
              | zero =>
                  have hps : dist p.poi = JsNum.fin s := hks
                  obtain ⟨t, ht⟩ := jsLt_fin_left h3
                  have h5 := h3
                  rw [ht, hps] at h5
                  exact ⟨t, ht, jsLt_fin_fin.mp h5⟩
              | succ k' =>
                  exact h4 k' (Nat.lt_of_succ_lt_succ hk) (Nat.lt_of_succ_lt_succ hki) s hks
      · -- the head does not replace the running minimum
        have hlt' : jsLt (dist p.poi) nd = false := by
          cases h : jsLt (dist p.poi) nd
          · rfl
          · exact absurd h hlt
        have hstep : nearestFold dist (p :: rest) (nd, m) =
            nearestFold dist rest (nd, m) := by
          simp [nearestFold, hlt']
        have key := ih nd m hnd
        constructor
        · intro l hl s hs
          rcases List.mem_cons.mp hl with rfl | hl'
          · -- the head itself has a finite distance; the running minimum
            -- must already be a finite value below it
            cases nd with
            | nan => exact absurd rfl hnd
            | inf =>
                rw [hs] at hlt'
                simp [jsLt] at hlt'
            | fin r0 =>
                rw [hs] at hlt'
                have hr0 : r0 ≤ s := by
                  by_contra hcon
                  have : s < r0 := lt_of_not_le hcon
                  simp [jsLt, this] at hlt'
                rw [hstep]
                rcases key.2 with hunch | ⟨i, hi, _h1, _h2, h3, _h4⟩
                · exact ⟨r0, by rw [hunch], hr0⟩
                · obtain ⟨t, ht⟩ := jsLt_fin_left h3
                  rw [ht] at h3
                  exact ⟨t, ht, le_trans (le_of_lt (jsLt_fin_fin.mp h3)) hr0⟩
          · rw [hstep]
            exact key.1 l hl' s hs
        · rcases key.2 with hunch | ⟨i, hi, h1, h2, h3, h4⟩
          · left
            rw [hstep, hunch]
          · right
            refine ⟨i + 1, Nat.succ_lt_succ hi, ?_, ?_, ?_, ?_⟩
            · rw [hstep]; exact h1
            · rw [hstep]; exact h2
            · rw [hstep]; exact h3
            · intro k hk hki s hks
              rw [hstep]
              cases k with
              | zero =>
                  have hps : dist p.poi = JsNum.fin s := hks
                  cases nd with
                  | nan => exact absurd rfl hnd
                  | inf =>
                      rw [hps] at hlt'
                      simp [jsLt] at hlt'
                  | fin r0 =>
                      rw [hps] at hlt'
                      have hr0 : r0 ≤ s := by
                        by_contra hcon
                        have : s < r0 := lt_of_not_le hcon
                        simp [jsLt, this] at hlt'
                      obtain ⟨t, ht⟩ := jsLt_fin_left h3
                      rw [ht] at h3
                      exact ⟨t, ht, lt_of_lt_of_le (jsLt_fin_fin.mp h3) hr0⟩
              | succ k' =>
                  exact h4 k' (Nat.lt_of_succ_lt_succ hk) (Nat.lt_of_succ_lt_succ hki) s hks

lemma mem_of_getLast?_eq {α : Type} : ∀ {l : List α} {a : α}, l.getLast? = some a → a ∈ l := by
  intro l
  induction l with
  | nil => intro a h; cases h
  | cons b t ih =>
      intro a h
      cases t with
      | nil =>
          have : b = a := by simpa using h
          simp [this]
      | cons c t' =>
          rw [List.getLast?_cons_cons] at h
          exact List.mem_cons_of_mem b (ih h)

lemma updatePoint_played (dist : PointOfInterest → JsNum) (l : LocationState) :
    (updatePoint dist l).played =
      (l.played || jsLe (dist l.poi) (JsNum.fin TRIGGER_RADIUS)) := by
  cases hp : l.played <;> cases hle : jsLe (dist l.poi) (JsNum.fin TRIGGER_RADIUS) <;>
    simp [updatePoint, qualifies, hp, hle]

lemma updatePoint_poi (dist : PointOfInterest → JsNum) (l : LocationState) :
    (updatePoint dist l).poi = l.poi := by
  cases hq : qualifies dist l <;> simp [updatePoint, hq]

lemma updatePoint_distance (dist : PointOfInterest → JsNum) (l : LocationState) :
    (updatePoint dist l).distance = dist l.poi := by
  cases hq : qualifies dist l <;> simp [updatePoint, hq]

/-! Projections of a full `processLocationUpdate` call. -/

lemma processLocationUpdate_newLocations (dist : PointOfInterest → JsNum)
    (locs : List LocationState) :
    (processLocationUpdate dist locs).newLocations = locs.map (updatePoint dist) := by
  simp [processLocationUpdate, runScan_updated, initialScanAcc]

lemma processLocationUpdate_didTrigger (dist : PointOfInterest → JsNum)
    (locs : List LocationState) :
    (processLocationUpdate dist locs).didTrigger = locs.any (qualifies dist) := by
  simp [processLocationUpdate, runScan_didTrigger, initialScanAcc]

lemma processLocationUpdate_activeAudio (dist : PointOfInterest → JsNum)
    (locs : List LocationState) :
    (processLocationUpdate dist locs).activeAudio =
      ((locs.filter (qualifies dist)).getLast?).elim none (fun l => some l.poi.audioSrc) := by
  simp [processLocationUpdate, runScan_activeAudio, initialScanAcc]

lemma processLocationUpdate_errorCleared (dist : PointOfInterest → JsNum)
    (locs : List LocationState) :
    (processLocationUpdate dist locs).errorCleared = locs.any (qualifies dist) := by
  simp [processLocationUpdate, runScan_errorCleared, initialScanAcc]

lemma processLocationUpdate_nearest (dist : PointOfInterest → JsNum)
    (locs : List LocationState) :
    ((runScan dist locs initialScanAcc).nearestDist,
      (runScan dist locs initialScanAcc).nearestPoi) =
        nearestFold dist locs (JsNum.inf, none) := by
  have h := runScan_nearest dist locs initialScanAcc
  simpa [initialScanAcc] using h

lemma processLocationUpdate_status_trigger (dist : PointOfInterest → JsNum)
    (locs : List LocationState) (l : LocationState)
    (h : (locs.filter (qualifies dist)).getLast? = some l) :
    (processLocationUpdate dist locs).statusMessage = "Playing story for: " ++ l.poi.name := by
  have hmem : l ∈ locs.filter (qualifies dist) := mem_of_getLast?_eq h
  rcases List.mem_filter.mp hmem with ⟨hmem', hq⟩
  have hany : locs.any (qualifies dist) = true := List.any_eq_true.mpr ⟨l, hmem', hq⟩
  have hst := runScan_status dist locs initialScanAcc
  rw [h] at hst
  have hdt : initialScanAcc.didTrigger = false := rfl
  simp only [processLocationUpdate, runScan_didTrigger, hdt, Bool.false_or, hany, if_true]
  rw [hst]
  rfl

lemma processLocationUpdate_status_noTrigger (dist : PointOfInterest → JsNum)
    (locs : List LocationState) (hnq : locs.any (qualifies dist) = false) :
    (processLocationUpdate dist locs).statusMessage =
      (if (nearestFold dist locs (JsNum.inf, none)).1 = JsNum.inf then
        "Searching for points of interest..."
      else
        "Walk towards " ++
          (match (nearestFold dist locs (JsNum.inf, none)).2 with
           | some p => p.name
           | none => "undefined") ++
          " (" ++ jsNumToRoundedString (nearestFold dist locs (JsNum.inf, none)).1 ++
          "m away)") := by
  have hn := processLocationUpdate_nearest dist locs
  have h1 : (runScan dist locs initialScanAcc).nearestDist =
      (nearestFold dist locs (JsNum.inf, none)).1 := by
    rw [← hn]
  have h2 : (runScan dist locs initialScanAcc).nearestPoi =
      (nearestFold dist locs (JsNum.inf, none)).2 := by
    rw [← hn]
  have hdt : initialScanAcc.didTrigger = false := rfl
  simp only [processLocationUpdate, runScan_didTrigger, hdt, Bool.false_or, hnq,
    Bool.false_eq_true, if_false]
  rw [h1, h2]

/-- C4: for all coordinate pairs, `getDistance` is symmetric, and the
distance from a point to itself is zero; the definition above is the pure
deterministic haversine great-circle formula with Earth radius
6,371,000 m (`R = 6371e3`). -/
theorem c4_distance_symm_and_zero (lat1 lon1 lat2 lon2 : ℝ) :
    getDistance lat1 lon1 lat2 lon2 = getDistance lat2 lon2 lat1 lon1 ∧
      getDistance lat1 lon1 lat1 lon1 = 0 := by
  have key : ∀ x y : ℝ,
      Real.sin ((x - y) * Real.pi / 180 / 2) * Real.sin ((x - y) * Real.pi / 180 / 2) =
        Real.sin ((y - x) * Real.pi / 180 / 2) * Real.sin ((y - x) * Real.pi / 180 / 2) := by
    intro x y
    have h : (x - y) * Real.pi / 180 / 2 = -((y - x) * Real.pi / 180 / 2) := by ring
    rw [h, Real.sin_neg]
    ring
  have keyCos : Real.cos (lat2 * Real.pi / 180) * Real.cos (lat1 * Real.pi / 180) *
      Real.sin ((lon1 - lon2) * Real.pi / 180 / 2) *
      Real.sin ((lon1 - lon2) * Real.pi / 180 / 2) =
        Real.cos (lat1 * Real.pi / 180) * Real.cos (lat2 * Real.pi / 180) *
        Real.sin ((lon2 - lon1) * Real.pi / 180 / 2) *
        Real.sin ((lon2 - lon1) * Real.pi / 180 / 2) := by
    have h : (lon1 - lon2) * Real.pi / 180 / 2 = -((lon2 - lon1) * Real.pi / 180 / 2) := by
      ring
    rw [h, Real.sin_neg]
    ring
  constructor
  · simp only [getDistance]
    rw [key lat1 lat2, keyCos]
  · simp only [getDistance]
    have h1 : (lat1 - lat1) * Real.pi / 180 / 2 = 0 := by ring
    have h2 : (lon1 - lon1) * Real.pi / 180 / 2 = 0 := by ring
    rw [h1, h2, Real.sin_zero]
    have h3 : (0 : ℝ) * 0 +
        Real.cos (lat1 * Real.pi / 180) * Real.cos (lat1 * Real.pi / 180) * 0 * 0 = 0 := by
      ring
    rw [h3, Real.sqrt_zero]
    have h4 : (1 : ℝ) - 0 = 1 := by ring
    rw [h4, Real.sqrt_one]
    have h5 : atan2 0 1 = 0 := by
      simp only [atan2]
      rw [if_pos (by norm_num : (0 : ℝ) < 1)]
      norm_num [Real.arctan_zero]
    rw [h5]
    ring

/-! Monotonicity of the `played` flag across a run. -/

lemma forall2_played_trans {a b c : List LocationState}
    (h1 : List.Forall₂ (fun x y => x.played = true → y.played = true) a b)
    (h2 : List.Forall₂ (fun x y => x.played = true → y.played = true) b c) :
    List.Forall₂ (fun x y => x.played = true → y.played = true) a c := by
  induction h1 generalizing c with
  | nil => cases h2; exact List.Forall₂.nil
  | cons hxy _t ih =>
      cases h2 with
      | cons hyz t2 => exact List.Forall₂.cons (fun h => hyz (hxy h)) (ih t2)

lemma processLocationUpdate_mono (dist : PointOfInterest → JsNum) (locs : List LocationState) :
    List.Forall₂ (fun x y => x.played = true → y.played = true) locs
      (processLocationUpdate dist locs).newLocations := by
  rw [processLocationUpdate_newLocations, List.forall₂_map_right_iff, List.forall₂_same]
  intro x _ h
  rw [updatePoint_played, h]
  simp

lemma updateSeq_mono (dists : List (PointOfInterest → JsNum)) :
    ∀ locs : List LocationState,
      List.Forall₂ (fun x y => x.played = true → y.played = true) locs
        (updateSeq dists locs) := by
  induction dists with
  | nil =>
      intro locs
      exact List.forall₂_same.mpr (fun x _ h => h)
  | cons d ds ih =>
      intro locs
      have hstep : updateSeq (d :: ds) locs =
          updateSeq ds (processLocationUpdate d locs).newLocations := rfl
      rw [hstep]
      exact forall2_played_trans (processLocationUpdate_mono d locs)
        (ih (processLocationUpdate d locs).newLocations)

/-- C1 counterexample: with two unvisited POIs both at distance 0 from
the sample (a deployment whose two catalog entries share coordinates),
one single `processLocationUpdate` call marks BOTH POIs as played — not
at most one — and the narration activated and named in the status message
is the LAST qualifying POI in registry order ("Demo Two"), not the
earliest. -/
theorem c1_single_trigger_counterexample :
    ((processLocationUpdate demoZeroOracle demoUnvisited).newLocations.filter
        (fun l => l.played)).length = 2 ∧
    ¬ (((processLocationUpdate demoZeroOracle demoUnvisited).newLocations.filter
        (fun l => l.played)).length ≤ 1) ∧
    demoUnvisited.all (fun l => !l.played) = true ∧
    (processLocationUpdate demoZeroOracle demoUnvisited).statusMessage =
      "Playing story for: Demo Two" ∧
    (processLocationUpdate demoZeroOracle demoUnvisited).activeAudio = some "/two.m4a" := by
  decide

/-- C1 (amended): in one `processLocationUpdate` call EVERY qualifying
POI (distance at most `TRIGGER_RADIUS`, not yet played at the start of
the call) transitions to played — several can transition in the same
call — and the narration activated and the POI named in the guidance
message are those of the LAST qualifying POI in registry order. -/
theorem c1_amended_all_qualifying_trigger (dist : PointOfInterest → JsNum)
    (locs : List LocationState) :
    List.Forall₂ (fun old new => new.played = (old.played || qualifies dist old)) locs
      (processLocationUpdate dist locs).newLocations ∧
    (processLocationUpdate dist locs).activeAudio =
      Option.map (fun l => l.poi.audioSrc) ((locs.filter (qualifies dist)).getLast?) ∧
    ∀ l, (locs.filter (qualifies dist)).getLast? = some l →
      (processLocationUpdate dist locs).statusMessage = "Playing story for: " ++ l.poi.name := by
  refine ⟨?_, ?_, ?_⟩
  · rw [processLocationUpdate_newLocations, List.forall₂_map_right_iff, List.forall₂_same]
    intro x _
    cases hq : qualifies dist x <;> simp [updatePoint, hq]
  · rw [processLocationUpdate_activeAudio]
    cases h : (locs.filter (qualifies dist)).getLast? <;> simp [h]
  · intro l h
    exact processLocationUpdate_status_trigger dist locs l h

/-- C1 amended, witnessed at the tied two-POI state: the status message
names the second (last qualifying) demo POI. -/
theorem c1_amended_all_qualifying_trigger_witness :
    (processLocationUpdate demoZeroOracle demoUnvisited).statusMessage =
      "Playing story for: " ++ demoPoiTwo.name :=
  (c1_amended_all_qualifying_trigger demoZeroOracle demoUnvisited).2.2
    { poi := demoPoiTwo, played := false, distance := JsNum.inf } (by decide)

/-- C2: in every update, a POI's new `played` flag is its old flag OR-ed
with this call's within-radius test (so it becomes true exactly when the
computed distance is at or below `TRIGGER_RADIUS` while the flag was
false), the new `distance` is the freshly computed one, and across any
sequence of updates the flag never reverts from true to false. -/
theorem c2_visited_iff_within_radius_and_monotone (dist : PointOfInterest → JsNum)
    (locs : List LocationState) :
    List.Forall₂ (fun old new =>
        new.played = (old.played || jsLe (dist old.poi) (JsNum.fin TRIGGER_RADIUS)) ∧
        new.distance = dist old.poi) locs
      (processLocationUpdate dist locs).newLocations ∧
    ∀ dists : List (PointOfInterest → JsNum),
      List.Forall₂ (fun old new => old.played = true → new.played = true) locs
        (updateSeq dists locs) := by
  constructor
  · rw [processLocationUpdate_newLocations, List.forall₂_map_right_iff, List.forall₂_same]
    intro x _
    exact ⟨updatePoint_played dist x, updatePoint_distance dist x⟩
  · intro dists
    exact updateSeq_mono dists locs

/-- C2 witnessed on a concrete two-update run of the demo state. -/
theorem c2_visited_iff_within_radius_and_monotone_witness :
    List.Forall₂ (fun old new => old.played = true → new.played = true)
      demoUnvisited (updateSeq [demoZeroOracle, demoTieOracle] demoUnvisited) :=
  (c2_visited_iff_within_radius_and_monotone demoZeroOracle demoUnvisited).2
    [demoZeroOracle, demoTieOracle]

/-- C3 counterexample: the engine contains no sample validation and no
error path at all — the embedded `processLocationUpdate` is total and
reports nothing to the caller.  For a malformed (non-finite) sample the
haversine pipeline yields `NaN` for every POI (`nanOracle`), and the call
is processed anyway: every `lastDistance` is overwritten with `NaN`, so
the engine state is NOT left unchanged, contradicting the claimed
`InvalidSampleError` rejection semantics. -/
theorem c3_invalid_sample_counterexample :
    (processLocationUpdate nanOracle demoAfterFix).newLocations ≠ demoAfterFix ∧
    (processLocationUpdate nanOracle demoAfterFix).newLocations =
      [ { poi := demoPoiOne, played := false, distance := JsNum.nan } ] := by
  decide

/-- C3 (amended): `processLocationUpdate` performs no validation; a
malformed sample (all distances `NaN`) is processed like any other call —
every POI's `lastDistance` is overwritten with `NaN`, no POI triggers
(every `NaN` comparison is false), no narration is activated, no error is
reported, and the status message falls back to the searching text. -/
theorem c3_amended_no_validation (locs : List LocationState) :
    (processLocationUpdate nanOracle locs).newLocations =
      locs.map (fun l => { l with distance := JsNum.nan }) ∧
    (processLocationUpdate nanOracle locs).didTrigger = false ∧
    (processLocationUpdate nanOracle locs).activeAudio = none ∧
    (processLocationUpdate nanOracle locs).errorCleared = false ∧
    (processLocationUpdate nanOracle locs).statusMessage =
      "Searching for points of interest..." := by
  have hq : ∀ l : LocationState, qualifies nanOracle l = false := by
    intro l
    simp [qualifies, nanOracle, jsLe]
  have hany : locs.any (qualifies nanOracle) = false := by
    rw [List.any_eq_false]
    intro x _
    simp [hq x]
  have hnil : locs.filter (qualifies nanOracle) = [] := by
    rw [List.filter_eq_nil_iff]
    intro a _
    simp [hq a]
  refine ⟨?_, ?_, ?_, ?_, ?_⟩
  · rw [processLocationUpdate_newLocations]
    apply List.map_congr_left
    intro x _
    simp [updatePoint, hq x, nanOracle]
  · rw [processLocationUpdate_didTrigger, hany]
  · rw [processLocationUpdate_activeAudio, hnil]
    rfl
  · rw [processLocationUpdate_errorCleared, hany]
  · rw [processLocationUpdate_status_noTrigger nanOracle locs hany]
    have hfold : nearestFold nanOracle locs (JsNum.inf, none) = (JsNum.inf, none) := by
      rcases (nearestFold_spec nanOracle locs JsNum.inf none (by intro h; cases h)).2 with
        h | ⟨i, hi, h1, _h2, h3, _h4⟩
      · exact h
      · exfalso
        rw [h1] at h3
        simp [nanOracle, jsLt] at h3
    rw [hfold]
    simp

lemma no_trigger_any_false (dist : PointOfInterest → JsNum) (locs : List LocationState)
    (hnt : ∀ l ∈ locs, l.played = true ∨ jsLe (dist l.poi) (JsNum.fin TRIGGER_RADIUS) = false) :
    locs.any (qualifies dist) = false := by
  rw [List.any_eq_false]
  intro x hx
  rcases hnt x hx with hp | hle
  · simp [qualifies, hp]
  · simp [qualifies, hle]

lemma no_trigger_filter_nil (dist : PointOfInterest → JsNum) (locs : List LocationState)
    (hnt : ∀ l ∈ locs, l.played = true ∨ jsLe (dist l.poi) (JsNum.fin TRIGGER_RADIUS) = false) :
    locs.filter (qualifies dist) = [] := by
  rw [List.filter_eq_nil_iff]
  intro x hx
  rcases hnt x hx with hp | hle
  · simp [qualifies, hp]
  · simp [qualifies, hle]

/-- C5: in an update where no POI qualifies (each one already played or
farther than the trigger radius), no narration is activated and no
trigger is produced; if no POI has a finite distance the status falls
back to the searching message; otherwise the status names a globally
nearest POI — minimal over ALL POIs regardless of `played` — with its
distance rounded to the nearest meter. -/
theorem c5_no_trigger_guidance_nearest (dist : PointOfInterest → JsNum)
    (locs : List LocationState)
    (hnt : ∀ l ∈ locs, l.played = true ∨ jsLe (dist l.poi) (JsNum.fin TRIGGER_RADIUS) = false) :
    (processLocationUpdate dist locs).activeAudio = none ∧
    (processLocationUpdate dist locs).didTrigger = false ∧
    ((∀ l ∈ locs, ∀ s : ℚ, dist l.poi ≠ JsNum.fin s) →
      (processLocationUpdate dist locs).statusMessage =
        "Searching for points of interest...") ∧
    (∀ l0 ∈ locs, ∀ s0 : ℚ, dist l0.poi = JsNum.fin s0 →
      ∃ i, ∃ hi : i < locs.length, ∃ r : ℚ,
        dist (locs.get ⟨i, hi⟩).poi = JsNum.fin r ∧
        (∀ l ∈ locs, ∀ s : ℚ, dist l.poi = JsNum.fin s → r ≤ s) ∧
        (processLocationUpdate dist locs).statusMessage =
          "Walk towards " ++ (locs.get ⟨i, hi⟩).poi.name ++ " (" ++
            toString (jsRound r) ++ "m away)") := by
  have hany := no_trigger_any_false dist locs hnt
  have hnil := no_trigger_filter_nil dist locs hnt
  have spec := nearestFold_spec dist locs JsNum.inf none (by intro h; cases h)
  refine ⟨?_, ?_, ?_, ?_⟩
  · rw [processLocationUpdate_activeAudio, hnil]
    rfl
  · rw [processLocationUpdate_didTrigger, hany]
  · intro hnofin
    rw [processLocationUpdate_status_noTrigger dist locs hany]
    have hfold : nearestFold dist locs (JsNum.inf, none) = (JsNum.inf, none) := by
      rcases spec.2 with h | ⟨i, hi, h1, _h2, h3, _h4⟩
      · exact h
      · exfalso
        obtain ⟨q, hq1⟩ := jsLt_fin_left h3
        rw [h1] at hq1
        exact hnofin (locs.get ⟨i, hi⟩) (List.get_mem locs i hi) q hq1
    rw [hfold]
    simp
  · intro l0 hl0 s0 hs0
    obtain ⟨r, hr1, _hr2⟩ := spec.1 l0 hl0 s0 hs0
    rcases spec.2 with hunch | ⟨i, hi, h1, h2, _h3, _h4⟩
    · rw [hunch] at hr1
      simp at hr1
    · refine ⟨i, hi, r, ?_, ?_, ?_⟩
      · rw [← h1]
        exact hr1
      · intro l hl s hs
        obtain ⟨r', h5, h6⟩ := spec.1 l hl s hs
        rw [hr1] at h5
        injection h5 with h7
        rw [h7]
        exact h6
      · rw [processLocationUpdate_status_noTrigger dist locs hany]
        have hne : (nearestFold dist locs (JsNum.inf, none)).1 ≠ JsNum.inf := by
          rw [hr1]
          simp
        rw [if_neg hne, h2, hr1]
        rfl

/-- C5 witnessed: both demo POIs are outside the trigger radius (100 m
and 40 m); no narration is activated and no trigger occurs. -/
theorem c5_no_trigger_guidance_nearest_witness :
    (∀ l ∈ demoUnvisited, l.played = true ∨
      jsLe (demoFarOracle l.poi) (JsNum.fin TRIGGER_RADIUS) = false) ∧
    (processLocationUpdate demoFarOracle demoUnvisited).activeAudio = none ∧
    (processLocationUpdate demoFarOracle demoUnvisited).didTrigger = false :=
  ⟨by decide,
    (c5_no_trigger_guidance_nearest demoFarOracle demoUnvisited (by decide)).1,
    (c5_no_trigger_guidance_nearest demoFarOracle demoUnvisited (by decide)).2.1⟩

/-- C10: when several POIs are tied at the minimal finite distance in a
no-trigger update, the POI named in the guidance message is the earliest
tied POI in registry order — the running minimum only moves on a strictly
smaller distance, so every earlier POI is strictly farther than the one
selected, and the selection is deterministic under ties. -/
theorem c10_tie_break_earliest (dist : PointOfInterest → JsNum)
    (locs : List LocationState) (i j : ℕ)
    (hi : i < locs.length) (hj : j < locs.length) (hij : i < j) (r : ℚ)
    (hri : dist (locs.get ⟨i, hi⟩).poi = JsNum.fin r)
    (hrj : dist (locs.get ⟨j, hj⟩).poi = JsNum.fin r)
    (hmin : ∀ l ∈ locs, ∀ s : ℚ, dist l.poi = JsNum.fin s → r ≤ s)
    (hnt : ∀ l ∈ locs, l.played = true ∨
      jsLe (dist l.poi) (JsNum.fin TRIGGER_RADIUS) = false) :
    ∃ m, ∃ hm : m < locs.length, m ≤ i ∧
      dist (locs.get ⟨m, hm⟩).poi = JsNum.fin r ∧
      (∀ k, ∀ hk : k < locs.length, k < m → ∀ s : ℚ,
        dist (locs.get ⟨k, hk⟩).poi = JsNum.fin s → r < s) ∧
      (processLocationUpdate dist locs).statusMessage =
        "Walk towards " ++ (locs.get ⟨m, hm⟩).poi.name ++ " (" ++
          toString (jsRound r) ++ "m away)" := by
  have hany := no_trigger_any_false dist locs hnt
  have spec := nearestFold_spec dist locs JsNum.inf none (by intro h; cases h)
  obtain ⟨r', hr'1, hr'2⟩ := spec.1 (locs.get ⟨i, hi⟩) (List.get_mem locs i hi) r hri
  rcases spec.2 with hunch | ⟨m, hm, h1, h2, _h3, h4⟩
  · rw [hunch] at hr'1
    simp at hr'1
  · have hdm : dist (locs.get ⟨m, hm⟩).poi = JsNum.fin r' := by
      rw [← h1]
      exact hr'1
    have hrr : r ≤ r' := hmin (locs.get ⟨m, hm⟩) (List.get_mem locs m hm) r' hdm
    have hreq : r' = r := le_antisymm hr'2 hrr
    subst hreq
    have hfirst : ∀ k, ∀ hk : k < locs.length, k < m → ∀ s : ℚ,
        dist (locs.get ⟨k, hk⟩).poi = JsNum.fin s → r' < s := by
      intro k hk hkm s hks
      obtain ⟨t, ht1, ht2⟩ := h4 k hk hkm s hks
      rw [hr'1] at ht1
      injection ht1 with ht3
      rw [ht3]
      exact ht2
    have hmi : m ≤ i := by
      by_contra hcon
      push_neg at hcon
      exact absurd (hfirst i hi hcon r' hri) (lt_irrefl r')
    refine ⟨m, hm, hmi, hdm, hfirst, ?_⟩
    rw [processLocationUpdate_status_noTrigger dist locs hany]
    have hne : (nearestFold dist locs (JsNum.inf, none)).1 ≠ JsNum.inf := by
      rw [hr'1]
      simp
    rw [if_neg hne, h2, hr'1]
    rfl

/-- C10 witnessed: both demo POIs tied at 50 m, outside the radius; the
guidance selection resolves at an index no later than the first tied
one. -/
theorem c10_tie_break_earliest_witness :
    (demoTieOracle (demoUnvisited.get ⟨0, by decide⟩).poi = JsNum.fin 50 ∧
      demoTieOracle (demoUnvisited.get ⟨1, by decide⟩).poi = JsNum.fin 50) ∧
    ∃ m, ∃ hm : m < demoUnvisited.length, m ≤ 0 ∧
      demoTieOracle (demoUnvisited.get ⟨m, hm⟩).poi = JsNum.fin 50 ∧
      (∀ k, ∀ hk : k < demoUnvisited.length, k < m → ∀ s : ℚ,
        demoTieOracle (demoUnvisited.get ⟨k, hk⟩).poi = JsNum.fin s → 50 < s) ∧
      (processLocationUpdate demoTieOracle demoUnvisited).statusMessage =
        "Walk towards " ++ (demoUnvisited.get ⟨m, hm⟩).poi.name ++ " (" ++
          toString (jsRound 50) ++ "m away)" :=
  ⟨⟨by decide, by decide⟩,
    c10_tie_break_earliest demoTieOracle demoUnvisited 0 1 (by decide) (by decide)
      (by decide) 50 (by decide) (by decide)
      (by
        intro l _hl s hs
        injection hs with h
        rw [← h])
      (by decide)⟩

/-- C6: when the platform rejects the playback attempt for a triggered
narration (autoplay blocked), the effect surfaces the manual-action
notice as the error condition, while the locations table — including the
`played = true` flag the engine committed for the triggering POI before
the playback outcome was known — is untouched, and the narration
reference stays active and loaded into the audio element for a later
manual play. -/
theorem c6_autoplay_rejected_state (dist : PointOfInterest → JsNum)
    (locs : List LocationState) (l : LocationState)
    (hmem : l ∈ locs) (hq : qualifies dist l = true) :
    (rejectedPlaybackState dist locs).error =
      some "Your browser blocked autoplay. Please press play on the audio player." ∧
    (rejectedPlaybackState dist locs).locations =
      (processLocationUpdate dist locs).newLocations ∧
    { l with played := true, distance := dist l.poi } ∈
      (rejectedPlaybackState dist locs).locations ∧
    (rejectedPlaybackState dist locs).activeAudio =
      (processLocationUpdate dist locs).activeAudio ∧
    ∃ src, (processLocationUpdate dist locs).activeAudio = some src ∧
      (rejectedPlaybackState dist locs).audioSrcAttr = some src := by
  have hmemf : l ∈ locs.filter (qualifies dist) := List.mem_filter.mpr ⟨hmem, hq⟩
  have hne : locs.filter (qualifies dist) ≠ [] := by
    intro h0
    rw [h0] at hmemf
    cases hmemf
  have hgl := List.getLast?_eq_getLast (locs.filter (qualifies dist)) hne
  have hsrc : (processLocationUpdate dist locs).activeAudio =
      some ((locs.filter (qualifies dist)).getLast hne).poi.audioSrc := by
    rw [processLocationUpdate_activeAudio, hgl]
    rfl
  have heff : rejectedPlaybackState dist locs =
      { locations := (processLocationUpdate dist locs).newLocations,
        activeAudio := (processLocationUpdate dist locs).activeAudio,
        error := some "Your browser blocked autoplay. Please press play on the audio player.",
        statusMessage := (processLocationUpdate dist locs).statusMessage,
        audioSrcAttr :=
          some ((locs.filter (qualifies dist)).getLast hne).poi.audioSrc } := by
    simp [rejectedPlaybackState, audioPlaybackEffect, appStateAfterUpdate, hsrc]
  have hupd : updatePoint dist l = { l with played := true, distance := dist l.poi } := by
    simp [updatePoint, hq]
  refine ⟨by rw [heff], by rw [heff], ?_, ?_, ?_⟩
  · rw [heff]
    show { l with played := true, distance := dist l.poi } ∈
      (processLocationUpdate dist locs).newLocations
    rw [processLocationUpdate_newLocations, ← hupd]
    exact List.mem_map_of_mem (updatePoint dist) hmem
  · rw [heff]
  · exact ⟨((locs.filter (qualifies dist)).getLast hne).poi.audioSrc, hsrc, by rw [heff]⟩

/-- C6 witnessed: the first demo POI triggers at distance 0; after the
rejected playback attempt the error notice is set and the POI's played
flag is still true. -/
theorem c6_autoplay_rejected_state_witness :
    (({ poi := demoPoiOne, played := false, distance := JsNum.inf } : LocationState) ∈
        demoUnvisited ∧
      qualifies demoZeroOracle
        { poi := demoPoiOne, played := false, distance := JsNum.inf } = true) ∧
    (rejectedPlaybackState demoZeroOracle demoUnvisited).error =
      some "Your browser blocked autoplay. Please press play on the audio player." ∧
    ({ poi := demoPoiOne, played := true, distance := JsNum.fin 0 } : LocationState) ∈
      (rejectedPlaybackState demoZeroOracle demoUnvisited).locations :=
  ⟨⟨by decide, by decide⟩,
    (c6_autoplay_rejected_state demoZeroOracle demoUnvisited
      { poi := demoPoiOne, played := false, distance := JsNum.inf }
      (by decide) (by decide)).1,
    (c6_autoplay_rejected_state demoZeroOracle demoUnvisited
      { poi := demoPoiOne, played := false, distance := JsNum.inf }
      (by decide) (by decide)).2.2.1⟩

/-- C7 counterexample: an error delivered by the position source on the
INITIAL fix request (`getCurrentPosition`) — permission denied being the
typical case — is surfaced as "Permission Denied: <message>. Please
enable location services.", not as "Location Error: <message>" as the
claim requires for every source error. -/
theorem c7_location_error_counterexample :
    (initialPositionErrorHandler demoTriggeredApp "Timeout expired").error =
      some "Permission Denied: Timeout expired. Please enable location services." ∧
    (initialPositionErrorHandler demoTriggeredApp "Timeout expired").error ≠
      some ("Location Error: " ++ "Timeout expired") := by
  refine ⟨rfl, ?_⟩
  decide

/-- C7 (amended): errors from the continuous watch stream are surfaced
as "Location Error: <message>", while an error on the initial fix is
surfaced as "Permission Denied: <message>. Please enable location
services."; both handlers touch only the error field, leaving every
POI's `played` flag and `lastDistance` (the locations table), the active
narration and the status message exactly as they were. -/
theorem c7_amended_error_handlers (st : AppState) (msg : String) :
    (watchPositionErrorHandler st msg).error = some ("Location Error: " ++ msg) ∧
    (watchPositionErrorHandler st msg).locations = st.locations ∧
    (watchPositionErrorHandler st msg).activeAudio = st.activeAudio ∧
    (watchPositionErrorHandler st msg).statusMessage = st.statusMessage ∧
    (watchPositionErrorHandler st msg).audioSrcAttr = st.audioSrcAttr ∧
    (initialPositionErrorHandler st msg).error =
      some ("Permission Denied: " ++ msg ++ ". Please enable location services.") ∧
    (initialPositionErrorHandler st msg).locations = st.locations ∧
    (initialPositionErrorHandler st msg).activeAudio = st.activeAudio ∧
    (initialPositionErrorHandler st msg).statusMessage = st.statusMessage ∧
    (initialPositionErrorHandler st msg).audioSrcAttr = st.audioSrcAttr :=
  ⟨rfl, rfl, rfl, rfl, rfl, rfl, rfl, rfl, rfl, rfl⟩

/-- C8 counterexample: with a narration active but no audio sink
configured (`audioRef.current` null), the playback effect does nothing at
all — the state is returned unchanged and in particular NO error of any
kind is surfaced, contradicting the claimed `PlaybackUnavailableError`. -/
theorem c8_no_sink_counterexample :
    audioPlaybackEffect demoTriggeredApp false true = demoTriggeredApp ∧
    (audioPlaybackEffect demoTriggeredApp false true).error = none := by
  decide

/-- C8 (amended): when no audio sink is configured the playback effect
is silently skipped: no error is surfaced and the entire component state
— guidance text, visited flags, active narration — is unchanged, so
guidance and visited-state tracking do continue regardless of audio
capability, but without any surfaced playback error. -/
theorem c8_amended_no_sink_silent (st : AppState) (playRejected : Bool) :
    audioPlaybackEffect st false playRejected = st := by
  cases h : st.activeAudio <;> simp [audioPlaybackEffect, h]

/-- C9 counterexample: in the first draft of the page the AR launch
button is rendered for EVERY visited POI; in a state where the id-2 POI
is visited but the designated id-1 POI is not, the AR experience is
offered even though POI 1 is unvisited. -/
theorem c9_ar_unlock_counterexample :
    arLaunchOffered_firstDraft demoMixedVisited = true ∧
    demoMixedVisited.all (fun l => !(l.poi.id == 1 && l.played)) = true := by
  decide

/-- C9 (amended): in the second draft the AR launch button is offered
exactly when some POI with id 1 is visited and the AR view is not
already open; in the first draft it is offered for every visited POI
regardless of id, so there the AR experience can be offered while POI
id 1 is unvisited. -/
theorem c9_amended_ar_unlock (locs : List LocationState) (showAR : Bool) :
    (arLaunchOffered_secondDraft locs showAR = true ↔
      (showAR = false ∧ ∃ l ∈ locs, l.poi.id = 1 ∧ l.played = true)) ∧
    (arLaunchOffered_firstDraft locs = true ↔ ∃ l ∈ locs, l.played = true) := by
  constructor
  · constructor
    · intro h
      rcases List.any_eq_true.mp h with ⟨l, hl, hb⟩
      simp only [Bool.and_eq_true, Bool.not_eq_true', beq_iff_eq] at hb
      exact ⟨hb.2, l, hl, hb.1.1, hb.1.2⟩
    · rintro ⟨hAR, l, hl, hid, hpl⟩
      apply List.any_eq_true.mpr
      refine ⟨l, hl, ?_⟩
      rw [hpl, hAR, hid]
      rfl
  · constructor
    · intro h
      rcases List.any_eq_true.mp h with ⟨l, hl, hb⟩
      exact ⟨l, hl, hb⟩
    · rintro ⟨l, hl, hb⟩
      exact List.any_eq_true.mpr ⟨l, hl, hb⟩
